import Mathlib

/-!
Shallow embedding of `src/app/api/imagekit/upload/route.js` from the
ai-image-editor repository: a single HTTP POST handler that authenticates a
caller, validates an uploaded image file (presence, MIME type, size), derives
a sanitized unique storage key, delegates the upload to the remote image
store, and assembles the JSON response (including a purely derived thumbnail
URL).  External collaborators (auth, form data extraction, the store's
`upload` and `url` capabilities, and the millisecond clock) are passed in as
explicit parameters; the handler additionally returns the list of calls it
made to the store's upload capability, so that "the store is never invoked"
is expressible as that list being empty.
-/

namespace ImageKitUpload

/-- `validTypes` from the source: the MIME allow-list. -/
def validTypes : List String := ["image/png", "image/jpeg", "image/webp"]

/-- `MAX_SIZE = 5 * 1024 * 1024` from the source (5 MiB). -/
def MAX_SIZE : Nat := 5 * 1024 * 1024

/-- The character class kept by the source's regex `[^a-zA-Z0-9.-]`:
a character matches the *complement* of this predicate exactly when the
regex replaces it. -/
def keepChar (c : Char) : Bool :=
  ('a' ≤ c && c ≤ 'z') || ('A' ≤ c && c ≤ 'Z') || ('0' ≤ c && c ≤ '9')
    || c == '.' || c == '-'

/-- The spec's safe set `[a-zA-Z0-9._-]` (the source's kept class plus the
underscore, which is also the replacement character). -/
def safeChar (c : Char) : Bool :=
  keepChar c || c == '_'

/-- `fileName.replace(/[^a-zA-Z0-9.-]/g, "_")`: each character outside the
kept class is replaced by an underscore. -/
def sanitize (s : String) : String :=
  String.mk (s.data.map (fun c => if keepChar c then c else '_'))

/-- `fileName?.replace(/[^a-zA-Z0-9.-]/g, "_") || "upload"`: a missing
field (`null`) short-circuits to `undefined` and the `||` default fires;
a present field is sanitized, and the `||` default also fires when the
sanitized string is empty (JavaScript falsiness), i.e. exactly when the
field was the empty string. -/
def sanitizedFileName (fileName : Option String) : String :=
  match fileName with
  | none => "upload"
  | some n => if sanitize n = "" then "upload" else sanitize n

/-- ``` `${userId}/${timestamp}_${sanitizedFileName}` ``` from the source:
the storage key composition (the template literal renders the numeric
timestamp in decimal, i.e. `Nat.repr`). -/
def storageKey (userId : String) (timestamp : Nat) (name : String) : String :=
  userId ++ "/" ++ Nat.repr timestamp ++ "_" ++ name

/-- The file part extracted from the multipart form: a declared MIME type
and the payload bytes (`file.type` and `Buffer.from(await file.arrayBuffer())`). -/
structure FilePart where
  type : String
  bytes : List UInt8
deriving DecidableEq

/-- One incoming request, after the external collaborators have acted:
the caller identity resolved by the auth collaborator (`userId`, possibly
none), and the two form fields `file` and `fileName` (each possibly absent). -/
structure Request where
  userId : Option String
  file : Option FilePart
  fileName : Option String
deriving DecidableEq

/-- The argument record of `imagekit.upload({ file, fileName, folder })`. -/
structure UploadParams where
  file : List UInt8
  fileName : String
  folder : String
deriving DecidableEq

/-- The store's upload response fields read by the handler. -/
structure UploadResponse where
  url : String
  fileId : String
  width : Nat
  height : Nat
  size : Nat
  name : String
deriving DecidableEq

/-- One transformation entry of `imagekit.url`'s `transformation` array. -/
structure Transformation where
  width : Nat
  height : Nat
  cropMode : String
  quality : Nat
deriving DecidableEq

/-- The fixed thumbnail transformation from the source:
width 400, height 300, crop mode `maintain_ar`, quality 80. -/
def thumbTransformation : Transformation :=
  { width := 400, height := 300, cropMode := "maintain_ar", quality := 80 }

/-- The JSON bodies the handler can produce: a plain `{ error }` object,
the success object `{ success: true, url, thumbnailUrl, fileId, width,
height, size, name }`, or the failure object `{ success: false, error,
details }`. -/
inductive Body where
  | errorBody (error : String)
  | successBody (url thumbnailUrl fileId : String) (width height size : Nat)
      (name : String)
  | failureBody (error details : String)
deriving DecidableEq

/-- A `NextResponse.json(body, { status })` value. -/
structure HttpResponse where
  status : Nat
  body : Body
deriving DecidableEq

/-- The `POST` handler of `src/app/api/imagekit/upload/route.js`, with its
collaborators explicit: `upload` is the store's upload capability (which may
fail with an error message, caught by the handler's `catch`), `urlFor` is the
store's pure URL-transformation capability (`imagekit.url`), `timestamp` is
the `Date.now()` reading, and `req` carries the resolved identity and form
fields.  Returns the HTTP response together with the list of upload calls
made to the store. -/
def POST (upload : UploadParams → Except String UploadResponse)
    (urlFor : String → Transformation → String)
    (timestamp : Nat) (req : Request) : HttpResponse × List UploadParams :=
  match req.userId with
  | none => ({ status := 401, body := .errorBody "Unauthorized" }, [])
  | some userId =>
    match req.file with
    | none => ({ status := 400, body := .errorBody "No file provided" }, [])
    | some file =>
      if ¬ validTypes.contains file.type then
        ({ status := 400, body := .errorBody "Unsupported file type" }, [])
      else if file.bytes.length > MAX_SIZE then
        ({ status := 400, body := .errorBody "File too large (max 5MB allowed)" }, [])
      else
        let uniqueFileName := storageKey userId timestamp (sanitizedFileName req.fileName)
        let params : UploadParams :=
          { file := file.bytes, fileName := uniqueFileName, folder := "/projects" }
        match upload params with
        | .error msg =>
            ({ status := 500, body := .failureBody "Failed to upload image" msg }, [params])
        | .ok r =>
            ({ status := 200,
               body := .successBody r.url (urlFor r.url thumbTransformation) r.fileId
                 r.width r.height r.size r.name }, [params])

/-- A store stub that always succeeds, used to instantiate universally
quantified theorems at concrete inputs. -/
def okUpload : UploadParams → Except String UploadResponse :=
  fun _ => .ok { url := "https://ik.example.com/projects/x.png", fileId := "fid1",
                 width := 10, height := 20, size := 1024, name := "x.png" }

/-- A store stub that always fails, used to instantiate universally
quantified theorems at concrete inputs. -/
def failUpload : UploadParams → Except String UploadResponse :=
  fun _ => .error "network down"

/-- A URL-transformation stub, used to instantiate universally quantified
theorems at concrete inputs. -/
def plainUrlFor : String → Transformation → String :=
  fun s _ => s ++ "?tr=w-400,h-300"

/-- Decimal value of a list of digit characters, most significant first:
a left inverse of `Nat.toDigits 10`, used to show the decimal rendering of
the timestamp in the storage key is injective. -/
def charsVal : List Char → Nat
  | [] => 0
  | c :: cs => (c.toNat - 48) * 10 ^ cs.length + charsVal cs

theorem charVal_digitChar (m : Nat) (h : m < 10) : (Nat.digitChar m).toNat - 48 = m := by
  have hall : ∀ m < 10, (Nat.digitChar m).toNat - 48 = m := by decide
  exact hall m h

theorem charsVal_toDigitsCore (fuel : Nat) : ∀ n acc, n < fuel →
    charsVal (Nat.toDigitsCore 10 fuel n acc) = n * 10 ^ acc.length + charsVal acc := by
  induction fuel with
  | zero => intro n acc h; omega
  | succ fuel ih =>
    intro n acc h
    simp only [Nat.toDigitsCore]
    split
    · rename_i hdiv
      have hn : n < 10 := by omega
      simp only [charsVal, List.length_cons]
      rw [charVal_digitChar (n % 10) (Nat.mod_lt _ (by omega))]
      have : n % 10 = n := Nat.mod_eq_of_lt hn
      rw [this]
    · rename_i hdiv
      have hlt : n / 10 < fuel := by omega
      rw [ih (n / 10) (Nat.digitChar (n % 10) :: acc) hlt]
      simp only [charsVal, List.length_cons]
      rw [charVal_digitChar (n % 10) (Nat.mod_lt _ (by omega))]
      calc n / 10 * 10 ^ (acc.length + 1) + (n % 10 * 10 ^ acc.length + charsVal acc)
          = (n / 10 * 10 + n % 10) * 10 ^ acc.length + charsVal acc := by ring
        _ = n * 10 ^ acc.length + charsVal acc := by
              have hdm : n / 10 * 10 + n % 10 = n := by omega
              rw [hdm]

theorem charsVal_toDigits (n : Nat) : charsVal (Nat.toDigits 10 n) = n := by
  have h := charsVal_toDigitsCore (n + 1) n [] (by omega)
  simpa [Nat.toDigits, charsVal] using h

theorem natRepr_injective {m n : Nat} (h : Nat.repr m = Nat.repr n) : m = n := by
  have hdig : Nat.toDigits 10 m = Nat.toDigits 10 n := by
    have hd := congrArg String.data h
    simpa [Nat.repr, List.asString] using hd
  rw [← charsVal_toDigits m, ← charsVal_toDigits n, hdig]

theorem sanitize_data (s : String) :
    (sanitize s).data = s.data.map (fun c => if keepChar c then c else '_') := rfl

theorem sanitize_length (s : String) : (sanitize s).length = s.length := by
  show (sanitize s).data.length = s.data.length
  rw [sanitize_data, List.length_map]

theorem sanitize_ne_empty (n : String) (h : n ≠ "") : sanitize n ≠ "" := by
  intro hc
  apply h
  apply String.ext
  have hd := congrArg String.data hc
  rw [sanitize_data] at hd
  simpa using hd

theorem sanitize_idem (s : String) : sanitize (sanitize s) = sanitize s := by
  apply String.ext
  rw [sanitize_data, sanitize_data, List.map_map]
  apply List.map_congr_left
  intro c _
  by_cases h : keepChar c <;> simp [h]

theorem sanitize_chars_safe (s : String) : ∀ c ∈ (sanitize s).data, safeChar c = true := by
  intro c hc
  rw [sanitize_data] at hc
  obtain ⟨a, _, rfl⟩ := List.mem_map.mp hc
  by_cases h : keepChar a <;> simp [safeChar, h]

theorem sanitize_eq_safe_map (s : String) :
    sanitize s = String.mk (s.data.map (fun c => if safeChar c then c else '_')) := by
  apply String.ext
  rw [sanitize_data]
  have hfun : (fun c => if keepChar c then c else '_')
      = (fun c : Char => if safeChar c then c else '_') := by
    funext c
    by_cases h : keepChar c
    · simp [h, safeChar]
    · by_cases h2 : c = '_'
      · subst h2; simp [safeChar]
      · simp [h, safeChar, h2]
  rw [hfun]

theorem sanitizedFileName_none_eq : sanitizedFileName none = "upload" := rfl

theorem sanitizedFileName_empty_eq : sanitizedFileName (some "") = "upload" := by
  simp [sanitizedFileName, sanitize]

theorem sanitizedFileName_some_eq (n : String) (h : n ≠ "") :
    sanitizedFileName (some n) = sanitize n := by
  simp [sanitizedFileName, sanitize_ne_empty n h]

theorem sanitizedFileName_ne_empty (fn : Option String) : sanitizedFileName fn ≠ "" := by
  match fn with
  | none => simp [sanitizedFileName]
  | some n =>
    simp only [sanitizedFileName]
    split
    · simp
    · rename_i h
      exact h

theorem storageKey_data (u : String) (ts : Nat) (n : String) :
    (storageKey u ts n).data
      = u.data ++ '/' :: ((Nat.repr ts).data ++ '_' :: n.data) := by
  simp [storageKey, String.data_append]

theorem storageKey_timestamp_injective (u n : String) {ts1 ts2 : Nat}
    (h : storageKey u ts1 n = storageKey u ts2 n) : ts1 = ts2 := by
  have hd := congrArg String.data h
  rw [storageKey_data, storageKey_data] at hd
  have h1 : (Nat.repr ts1).data ++ '_' :: n.data = (Nat.repr ts2).data ++ '_' :: n.data := by
    simpa using hd
  have h2 : (Nat.repr ts1).data = (Nat.repr ts2).data := by
    exact List.append_cancel_right h1
  exact natRepr_injective (String.ext h2)

theorem storageKey_caller_injective (ts : Nat) (n : String) {u1 u2 : String}
    (h : storageKey u1 ts n = storageKey u2 ts n) : u1 = u2 := by
  have hd := congrArg String.data h
  rw [storageKey_data, storageKey_data] at hd
  exact String.ext (List.append_cancel_right hd)

/-- C1: an authenticated request with a present file whose declared content
type is outside the allow-list gets HTTP 400 with body
`{ error: "Unsupported file type" }`, and no upload call reaches the store. -/
theorem C1_unsupported_type_rejected (upload : UploadParams → Except String UploadResponse)
    (urlFor : String → Transformation → String) (ts : Nat) (u : String) (f : FilePart)
    (fn : Option String) (h : f.type ∉ validTypes) :
    POST upload urlFor ts { userId := some u, file := some f, fileName := fn }
      = ({ status := 400, body := .errorBody "Unsupported file type" }, []) := by
  simp [POST, h]

theorem C1_witness :
    POST okUpload plainUrlFor 5
        { userId := some "u1", file := some ⟨"application/pdf", [0]⟩, fileName := some "a.pdf" }
      = ({ status := 400, body := .errorBody "Unsupported file type" }, []) :=
  C1_unsupported_type_rejected okUpload plainUrlFor 5 "u1" ⟨"application/pdf", [0]⟩
    (some "a.pdf") (by decide)

/-- C2: an authenticated request with an allowed file type whose byte length
exceeds `MAX_SIZE = 5 * 1024 * 1024` gets HTTP 400 with body
`{ error: "File too large (max 5MB allowed)" }`, and no upload call reaches
the store (the bound is checked locally, before the store is ever invoked). -/
theorem C2_too_large_rejected (upload : UploadParams → Except String UploadResponse)
    (urlFor : String → Transformation → String) (ts : Nat) (u : String) (f : FilePart)
    (fn : Option String) (htype : f.type ∈ validTypes) (hsize : f.bytes.length > MAX_SIZE) :
    POST upload urlFor ts { userId := some u, file := some f, fileName := fn }
      = ({ status := 400, body := .errorBody "File too large (max 5MB allowed)" }, []) := by
  simp [POST, htype, hsize]

theorem C2_witness :
    POST okUpload plainUrlFor 5
        { userId := some "u1", file := some ⟨"image/png", List.replicate (MAX_SIZE + 1) 0⟩,
          fileName := none }
      = ({ status := 400, body := .errorBody "File too large (max 5MB allowed)" }, []) :=
  C2_too_large_rejected okUpload plainUrlFor 5 "u1" ⟨"image/png", List.replicate (MAX_SIZE + 1) 0⟩
    none (by decide) (by simp)

/-- C3: when the auth collaborator yields no caller identity, the handler
returns HTTP 401 with body `{ error: "Unauthorized" }` regardless of the
form fields (no presence/type/size validation happens), and the store is
never invoked. -/
theorem C3_unauthorized (upload : UploadParams → Except String UploadResponse)
    (urlFor : String → Transformation → String) (ts : Nat) (file : Option FilePart)
    (fn : Option String) :
    POST upload urlFor ts { userId := none, file := file, fileName := fn }
      = ({ status := 401, body := .errorBody "Unauthorized" }, []) := rfl

/-- C4 counterexample: the handler never checks that the payload is
non-empty, so a present file with zero bytes and an allowed type is
forwarded to the store with byte length 0, refuting the claimed
`length > 0` part of the UploadRequest invariant. -/
theorem C4_counterexample :
    ∃ p, p ∈ (POST okUpload plainUrlFor 0
        { userId := some "u1", file := some ⟨"image/png", []⟩, fileName := none }).2
      ∧ p.file.length = 0 :=
  ⟨⟨[], "u1/0_upload", "/projects"⟩, by decide, rfl⟩

/-- C4 (amended): every payload forwarded to the store's upload operation
has byte length at most `MAX_SIZE`, and comes from the request's file, whose
declared content type is in the allow-list (the `length > 0` part of the
claimed invariant is not enforced by the code). -/
theorem C4_amended_forwarded_payload (upload : UploadParams → Except String UploadResponse)
    (urlFor : String → Transformation → String) (ts : Nat) (req : Request) (p : UploadParams)
    (hp : p ∈ (POST upload urlFor ts req).2) :
    p.file.length ≤ MAX_SIZE
      ∧ ∃ f, req.file = some f ∧ f.type ∈ validTypes ∧ p.file = f.bytes := by
  obtain ⟨uid, file, fn⟩ := req
  match uid with
  | none => simp [POST] at hp
  | some u =>
    match file with
    | none => simp [POST] at hp
    | some f =>
      by_cases hc : f.type ∈ validTypes
      case neg => simp [POST, hc] at hp
      case pos =>
        by_cases hs : f.bytes.length > MAX_SIZE
        · simp [POST, hc, hs] at hp
        · cases hup : upload ⟨f.bytes, storageKey u ts (sanitizedFileName fn), "/projects"⟩ with
          | error msg =>
            simp [POST, hc, hs, hup] at hp
            subst hp
            exact ⟨Nat.le_of_not_lt hs, f, rfl, hc, rfl⟩
          | ok r =>
            simp [POST, hc, hs, hup] at hp
            subst hp
            exact ⟨Nat.le_of_not_lt hs, f, rfl, hc, rfl⟩

theorem C4_amended_witness :
    (⟨[1], storageKey "u1" 0 (sanitizedFileName none), "/projects"⟩ : UploadParams).file.length
        ≤ MAX_SIZE
      ∧ ∃ f, ({ userId := some "u1", file := some ⟨"image/png", [1]⟩, fileName := none }
            : Request).file = some f ∧ f.type ∈ validTypes
          ∧ (⟨[1], storageKey "u1" 0 (sanitizedFileName none), "/projects"⟩
              : UploadParams).file = f.bytes :=
  C4_amended_forwarded_payload okUpload plainUrlFor 0
    { userId := some "u1", file := some ⟨"image/png", [1]⟩, fileName := none }
    ⟨[1], storageKey "u1" 0 (sanitizedFileName none), "/projects"⟩ (by decide)

/-- C5: on a successful ingestion the single upload call forwarded to the
store carries the storage key `{callerId}/{timestamp}_{sanitizedName}` (the
timestamp rendered in decimal); the sanitized name of a supplied non-empty
name replaces every character outside the safe set `[a-zA-Z0-9._-]` by an
underscore, an absent name defaults to the placeholder `"upload"`, and in
particular `"My Photo!.png"` sanitizes to `"My_Photo_.png"`. -/
theorem C5_storage_key_format (upload : UploadParams → Except String UploadResponse)
    (urlFor : String → Transformation → String) (ts : Nat) (u : String) (f : FilePart)
    (fn : Option String) (r : UploadResponse) (htype : f.type ∈ validTypes)
    (hsize : ¬ f.bytes.length > MAX_SIZE)
    (hok : upload ⟨f.bytes, storageKey u ts (sanitizedFileName fn), "/projects"⟩ = .ok r) :
    (POST upload urlFor ts { userId := some u, file := some f, fileName := fn }).2
        = [⟨f.bytes, u ++ "/" ++ Nat.repr ts ++ "_" ++ sanitizedFileName fn, "/projects"⟩]
      ∧ (POST upload urlFor ts { userId := some u, file := some f, fileName := fn }).1.status
          = 200
      ∧ (∀ n : String, n ≠ "" → sanitizedFileName (some n)
            = String.mk (n.data.map (fun c => if safeChar c then c else '_')))
      ∧ sanitizedFileName none = "upload"
      ∧ sanitize "My Photo!.png" = "My_Photo_.png" := by
  refine ⟨?_, ?_, ?_, rfl, by decide⟩
  · simp only [POST, htype, hsize, hok]
    simp [storageKey, htype]
  · simp [POST, htype, hsize, hok]
  · intro n hn
    rw [sanitizedFileName_some_eq n hn, sanitize_eq_safe_map]

theorem C5_witness :
    (POST okUpload plainUrlFor 7
          { userId := some "u1", file := some ⟨"image/png", [1]⟩,
            fileName := some "My Photo!.png" }).2
        = [⟨[1], "u1" ++ "/" ++ Nat.repr 7 ++ "_" ++ sanitizedFileName (some "My Photo!.png"),
            "/projects"⟩]
      ∧ (POST okUpload plainUrlFor 7
            { userId := some "u1", file := some ⟨"image/png", [1]⟩,
              fileName := some "My Photo!.png" }).1.status = 200
      ∧ (∀ n : String, n ≠ "" → sanitizedFileName (some n)
            = String.mk (n.data.map (fun c => if safeChar c then c else '_')))
      ∧ sanitizedFileName none = "upload"
      ∧ sanitize "My Photo!.png" = "My_Photo_.png" :=
  C5_storage_key_format okUpload plainUrlFor 7 "u1" ⟨"image/png", [1]⟩
    (some "My Photo!.png") _ (by decide) (by decide) rfl

/-- C6: storage keys are unique in the sense claimed: with the caller and
name fixed, distinct millisecond timestamps give distinct keys, and with the
timestamp and name fixed, distinct callers give distinct keys. -/
theorem C6_storage_key_unique :
    (∀ (u n : String) (ts1 ts2 : Nat), ts1 ≠ ts2 →
        storageKey u ts1 n ≠ storageKey u ts2 n)
    ∧ (∀ (u1 u2 : String) (ts : Nat) (n : String), u1 ≠ u2 →
        storageKey u1 ts n ≠ storageKey u2 ts n) := by
  constructor
  · intro u n ts1 ts2 hne heq
    exact hne (storageKey_timestamp_injective u n heq)
  · intro u1 u2 ts n hne heq
    exact hne (storageKey_caller_injective ts n heq)

theorem C6_witness :
    storageKey "u1" 1 "a.png" ≠ storageKey "u1" 2 "a.png"
      ∧ storageKey "u1" 1 "a.png" ≠ storageKey "u2" 1 "a.png" :=
  ⟨C6_storage_key_unique.1 "u1" "a.png" 1 2 (by decide),
   C6_storage_key_unique.2 "u1" "u2" 1 "a.png" (by decide)⟩

/-- C7: the name-sanitization function is total (a Lean function) and
idempotent, and every character it outputs lies in the safe set
`[a-zA-Z0-9._-]`. -/
theorem C7_sanitize_idempotent_safe :
    (∀ s : String, sanitize (sanitize s) = sanitize s)
    ∧ (∀ s : String, ∀ c ∈ (sanitize s).data, safeChar c = true) :=
  ⟨sanitize_idem, sanitize_chars_safe⟩

theorem C7_witness :
    sanitize (sanitize "My Photo!.png") = sanitize "My Photo!.png"
      ∧ safeChar '_' = true :=
  ⟨C7_sanitize_idempotent_safe.1 "My Photo!.png",
   C7_sanitize_idempotent_safe.2 "My Photo!.png" '_' (by decide)⟩

/-- C8: when the store upload succeeds, the handler answers HTTP 200 with
`{ success: true, url, thumbnailUrl, fileId, width, height, size, name }`:
all fields verbatim from the store's response except `thumbnailUrl`, which
is computed by the store's pure URL capability from the canonical URL with
the fixed transformation width 400, height 300, crop mode `maintain_ar`,
quality 80 — no further store upload call is made. -/
theorem C8_success_response (upload : UploadParams → Except String UploadResponse)
    (urlFor : String → Transformation → String) (ts : Nat) (u : String) (f : FilePart)
    (fn : Option String) (r : UploadResponse) (htype : f.type ∈ validTypes)
    (hsize : ¬ f.bytes.length > MAX_SIZE)
    (hok : upload ⟨f.bytes, storageKey u ts (sanitizedFileName fn), "/projects"⟩ = .ok r) :
    POST upload urlFor ts { userId := some u, file := some f, fileName := fn }
      = ({ status := 200,
           body := .successBody r.url
             (urlFor r.url { width := 400, height := 300, cropMode := "maintain_ar",
                             quality := 80 })
             r.fileId r.width r.height r.size r.name },
         [⟨f.bytes, storageKey u ts (sanitizedFileName fn), "/projects"⟩]) := by
  simp [POST, htype, hsize, hok, thumbTransformation]

theorem C8_witness :
    POST okUpload plainUrlFor 7
        { userId := some "u1", file := some ⟨"image/png", [1]⟩, fileName := some "photo.png" }
      = ({ status := 200,
           body := .successBody "https://ik.example.com/projects/x.png"
             (plainUrlFor "https://ik.example.com/projects/x.png"
               { width := 400, height := 300, cropMode := "maintain_ar", quality := 80 })
             "fid1" 10 20 1024 "x.png" },
         [⟨[1], storageKey "u1" 7 (sanitizedFileName (some "photo.png")), "/projects"⟩]) :=
  C8_success_response okUpload plainUrlFor 7 "u1" ⟨"image/png", [1]⟩ (some "photo.png")
    _ (by decide) (by decide) rfl

/-- C9: when the store's upload call fails with some message, the handler
catches it and answers HTTP 500 with
`{ success: false, error: "Failed to upload image", details: <message> }`;
the handler is a total function, so no exception escapes it. -/
theorem C9_store_failure_500 (upload : UploadParams → Except String UploadResponse)
    (urlFor : String → Transformation → String) (ts : Nat) (u : String) (f : FilePart)
    (fn : Option String) (msg : String) (htype : f.type ∈ validTypes)
    (hsize : ¬ f.bytes.length > MAX_SIZE)
    (herr : upload ⟨f.bytes, storageKey u ts (sanitizedFileName fn), "/projects"⟩
        = .error msg) :
    (POST upload urlFor ts { userId := some u, file := some f, fileName := fn }).1
      = { status := 500, body := .failureBody "Failed to upload image" msg } := by
  simp [POST, htype, hsize, herr]

theorem C9_witness :
    (POST failUpload plainUrlFor 7
        { userId := some "u1", file := some ⟨"image/png", [1]⟩, fileName := none }).1
      = { status := 500, body := .failureBody "Failed to upload image" "network down" } :=
  C9_store_failure_500 failUpload plainUrlFor 7 "u1" ⟨"image/png", [1]⟩ none
    "network down" (by decide) (by decide) rfl

/-- C10: sanitization preserves string length, so a non-empty supplied name
never sanitizes to the empty string; the placeholder `"upload"` is the
result exactly for an absent or empty `fileName` field (a non-empty field
yields its sanitization), and the name portion of a storage key is never
empty. -/
theorem C10_placeholder_and_nonempty :
    (∀ s : String, (sanitize s).length = s.length)
    ∧ (∀ n : String, n ≠ "" → sanitize n ≠ "")
    ∧ sanitizedFileName none = "upload"
    ∧ sanitizedFileName (some "") = "upload"
    ∧ (∀ n : String, n ≠ "" → sanitizedFileName (some n) = sanitize n)
    ∧ (∀ fn : Option String, sanitizedFileName fn ≠ "") :=
  ⟨sanitize_length, sanitize_ne_empty, sanitizedFileName_none_eq,
   sanitizedFileName_empty_eq, sanitizedFileName_some_eq, sanitizedFileName_ne_empty⟩

theorem C10_witness :
    (sanitize "a b").length = ("a b" : String).length
      ∧ sanitize "a b" ≠ ""
      ∧ sanitizedFileName (some "a b") = sanitize "a b"
      ∧ sanitizedFileName (some "a b") ≠ "" :=
  ⟨C10_placeholder_and_nonempty.1 "a b",
   C10_placeholder_and_nonempty.2.1 "a b" (by decide),
   C10_placeholder_and_nonempty.2.2.2.2.1 "a b" (by decide),
   C10_placeholder_and_nonempty.2.2.2.2.2 (some "a b")⟩

end ImageKitUpload
